import Mathlib

/-!
Verification of the genomic-variant processing core: the VCF record parser
(`app/infrastructure/vcf_parser.py`), the ACMG-inspired classifier, the
significance scorer, the ranker/summarizer and the rules-introspection
structure (`app/core/variant_classifier.py`), together with the concrete
gene-category predicates of `app/infrastructure/data_repository.py`.

Modelling conventions:
* Python strings are modelled as `List Char` for the parsing primitives
  (`str.split`, `str.strip`, `int(...)`, `float(...)` are re-implemented as
  structural recursions); stored record fields use `String`.
* Python floats are modelled as exact rationals (`ℚ`).  Every numeric literal
  the code compares against (0.01, 0.05, 0.02, 0.001, 500, 1000) and every
  score contribution is exactly representable in the decimal inputs used, so
  strict comparisons agree with IEEE double comparisons on all inputs
  appearing in the specification.  Rational constants are written with
  `mkRat` so that the kernel can evaluate them.
* The significance score is an `Int`: the Python code accumulates a float,
  but every contribution is a (non-negative) integer, so the float is always
  exactly this integer.
* Python exceptions that are caught per record are modelled by `Option`:
  a raised-and-caught exception while handling one line is `none`.
* `pydantic` v1 validation of the `Variant` model coerces the Python bool
  `True` (stored for bare INFO flags) to the string `"True"` for the
  `Optional[str]` fields `gene` and `clinical` (bool is an int subclass and
  v1's str validator stringifies numeric values).
-/

/-! ### Python string/number primitives -/

/-- Characters treated as whitespace by Python `str.strip()` (ASCII part). -/
def isPySpace (c : Char) : Bool :=
  c = ' ' || c = '\t' || c = '\n' || c = '\r' || c = '\x0b' || c = '\x0c'

/-- Python `str.strip()`. -/
def pyStrip (l : List Char) : List Char :=
  ((l.dropWhile isPySpace).reverse.dropWhile isPySpace).reverse

/-- Python `str.split(sep)` for a one-character separator: splits at every
occurrence, keeping empty segments (`"a;;b".split(";") == ["a","","b"]`). -/
def pySplit (sep : Char) : List Char → List (List Char)
  | [] => [[]]
  | c :: cs =>
    match pySplit sep cs with
    | [] => [[]]
    | h :: t => if c = sep then [] :: h :: t else (c :: h) :: t

/-- Python `str.split(sep, 1)` restricted to what the code consumes: `none`
when the separator does not occur (the `'=' in field` test fails), otherwise
the parts before and after the first occurrence. -/
def splitFirst (sep : Char) : List Char → Option (List Char × List Char)
  | [] => none
  | c :: cs =>
    if c = sep then some ([], cs)
    else
      match splitFirst sep cs with
      | none => none
      | some (a, b) => some (c :: a, b)

/-- Tail of Python's digit grammar `digit (["_"] digit)*`: after an initial
digit, digits may follow directly or after a single underscore. -/
def digitsTail : List Char → Bool
  | [] => true
  | '_' :: c :: cs => c.isDigit && digitsTail cs
  | c :: cs => c.isDigit && digitsTail cs

/-- A non-empty ASCII digit sequence with optional single underscores between
digits, as accepted inside Python `int(...)` and `float(...)` literals. -/
def isUnderscoredDigits (l : List Char) : Bool :=
  match l with
  | [] => false
  | c :: cs => c.isDigit && digitsTail cs

/-- Numeric value of a digit sequence, ignoring underscores. -/
def digitsValue (l : List Char) : Nat :=
  (l.filter (fun c => c != '_')).foldl (fun a c => 10 * a + (c.toNat - 48)) 0

/-- Unsigned part of Python `int(...)`. -/
def pyUnsignedInt (l : List Char) : Option Nat :=
  if isUnderscoredDigits l then some (digitsValue l) else none

/-- Python `int(str)`: strip whitespace, optional sign, digit sequence.
Failure (`ValueError`) is `none`.  (Non-ASCII decimal digits are not
modelled; no input in the repository or specification uses them.) -/
def pythonInt (l : List Char) : Option Int :=
  match pyStrip l with
  | '+' :: rest => (pyUnsignedInt rest).map (fun n => (n : Int))
  | '-' :: rest => (pyUnsignedInt rest).map (fun n => -(n : Int))
  | rest => (pyUnsignedInt rest).map (fun n => (n : Int))

/-- The exact rational `m * 10 ^ e`. -/
def decValue (m : Int) (e : Int) : ℚ :=
  if 0 ≤ e then mkRat (m * ((10 : Nat) ^ e.toNat : Nat)) 1
  else mkRat m ((10 : Nat) ^ (-e).toNat)

/-- Splits a float literal at the first `e`/`E` (exponent marker). -/
def splitExpMarker : List Char → List Char × Option (List Char)
  | [] => ([], none)
  | c :: cs =>
    if c = 'e' || c = 'E' then ([], some cs)
    else
      match splitExpMarker cs with
      | (a, r) => (c :: a, r)

/-- Mantissa `ip [ "." [fp] ]` of a Python float literal: returns the digits
read as an integer together with the number of fractional digits. -/
def parseMantissa (l : List Char) : Option (Int × Nat) :=
  match splitFirst '.' l with
  | none => (pyUnsignedInt l).map (fun n => ((n : Int), 0))
  | some (ip, fp) =>
    if fp.contains '.' then none
    else if ip = [] && fp = [] then none
    else if (ip.isEmpty || isUnderscoredDigits ip) && (fp.isEmpty || isUnderscoredDigits fp) then
      some (((digitsValue ip * 10 ^ (fp.filter (fun c => c != '_')).length + digitsValue fp : Nat) : Int),
            (fp.filter (fun c => c != '_')).length)
    else none

/-- Exponent part after `e`/`E`: optional sign and digits. -/
def parseExpPart (l : List Char) : Option Int :=
  match l with
  | '+' :: rest => (pyUnsignedInt rest).map (fun n => (n : Int))
  | '-' :: rest => (pyUnsignedInt rest).map (fun n => -(n : Int))
  | rest => (pyUnsignedInt rest).map (fun n => (n : Int))

/-- Unsigned Python float literal (`digits [. digits] [e sign digits]`),
with `neg` applying the leading sign to the value. -/
def pyFloatMag (neg : Bool) (l : List Char) : Option ℚ :=
  match splitExpMarker l with
  | (mant, expPart) =>
    match parseMantissa mant with
    | none => none
    | some (m, fl) =>
      let m' : Int := if neg then -m else m
      match expPart with
      | none => some (decValue m' (-(fl : Int)))
      | some ex =>
        match parseExpPart ex with
        | none => none
        | some e => some (decValue m' (e - (fl : Int)))

/-- Python `float(str)` for finite decimal literals: strip whitespace,
optional sign, mantissa and optional exponent.  Failure (`ValueError`) is
`none`.  The non-finite literals `inf`/`infinity`/`nan` are not modelled:
no input in the repository or the specification uses them. -/
def pythonFloat (l : List Char) : Option ℚ :=
  match pyStrip l with
  | '+' :: rest => pyFloatMag false rest
  | '-' :: rest => pyFloatMag true rest
  | rest => pyFloatMag false rest

/-- Python `str.upper()` (ASCII part, which covers every key and gene name
the code compares). -/
def pyUpperString (s : String) : String :=
  String.mk (s.data.map Char.toUpper)

/-- Python truthiness of an `Optional[str]`: `None` and `""` are falsy. -/
def pyTruthyStr : Option String → Bool
  | none => false
  | some s => !(s == "")

/-! ### Data model (`app/core/models.py`) -/

/-- `VariantImpact` enumeration. -/
inductive VariantImpact where
  | HIGH
  | MODERATE
  | LOW
  | MODIFIER
deriving DecidableEq

/-- `ClinVarStatus` enumeration. -/
inductive ClinVarStatus where
  | PATHOGENIC
  | LIKELY_PATHOGENIC
  | UNCERTAIN
  | LIKELY_BENIGN
  | BENIGN
  | CONFLICTING
deriving DecidableEq

/-- `VariantClassification` enumeration. -/
inductive VariantClassification where
  | LIKELY_PATHOGENIC
  | LIKELY_BENIGN
  | UNCERTAIN
deriving DecidableEq

/-- The `Variant` pydantic model. -/
structure Variant where
  chrom : String
  pos : Int
  variant_id : String
  ref : String
  alt : String
  gene : Option String
  impact : Option VariantImpact
  quality : Option ℚ
  filter_status : Option String
  clinical : Option String
deriving DecidableEq

/-- The `VariantWithClassification` pydantic model. -/
structure VariantWithClassification where
  variant : Variant
  clinvar_status : ClinVarStatus
  population_frequency : ℚ
  classification : VariantClassification
  significance_score : Int
deriving DecidableEq

/-- The `VariantResult` pydantic model (flat row for the top-N output). -/
structure VariantResult where
  variant_id : String
  gene : Option String
  chrom : String
  pos : Int
  ref : String
  alt : String
  clinvar_status : ClinVarStatus
  population_frequency : ℚ
  classification : VariantClassification
  significance_score : Int
  impact : Option VariantImpact
  clinical : Option String
deriving DecidableEq

/-- The `ProcessingSummary` pydantic model. -/
structure ProcessingSummary where
  total_variants : Nat
  pathogenic_variants : Nat
  benign_variants : Nat
  uncertain_variants : Nat
  high_impact_variants : Nat
  drug_response_variants : Nat
  unique_genes : Nat
deriving DecidableEq

/-! ### INFO field parsing (`VCFParser._parse_info_field` and friends) -/

/-- A value stored in the INFO dictionary: either the string after `=`, or
the Python boolean `True` recorded for a bare flag token. -/
inductive InfoVal where
  | str : String → InfoVal
  | flag : InfoVal
deriving DecidableEq

/-- Python dict assignment `info_fields[key] = value`: overwrites an
existing binding in place, otherwise appends. -/
def infoInsert (m : List (String × InfoVal)) (k : String) (v : InfoVal) :
    List (String × InfoVal) :=
  if m.any (fun p => p.1 == k) then
    m.map (fun p => if p.1 == k then (k, v) else p)
  else m ++ [(k, v)]

/-- `VCFParser._parse_info_field`: semicolon-separated `KEY=VALUE` pairs,
with bare tokens (no `=`) stored as the flag value `True`. -/
def _parse_info_field (infoStr : List Char) : List (String × InfoVal) :=
  if infoStr = [] ∨ infoStr = ['.'] then []
  else
    (pySplit ';' infoStr).foldl
      (fun m field =>
        match splitFirst '=' field with
        | some (k, v) => infoInsert m (String.mk k) (.str (String.mk v))
        | none => infoInsert m (String.mk field) .flag)
      []

/-- Python `info_fields.get(key)`. -/
def infoGet (m : List (String × InfoVal)) (k : String) : Option InfoVal :=
  (m.find? (fun p => p.1 == k)).map (fun p => p.2)

/-- What lands in an `Optional[str]` pydantic field fed from the INFO dict:
a `KEY=VALUE` value verbatim; for a bare flag the stored bool `True` is
coerced by pydantic v1 to the string `"True"`. -/
def getStrField : Option InfoVal → Option String
  | none => none
  | some (.str s) => some s
  | some .flag => some "True"

/-- The `impact_mapping` dictionary lookup of `VCFParser._parse_impact`
(after `.upper()`). -/
def impactFromString (s : String) : Option VariantImpact :=
  if s = "HIGH" then some .HIGH
  else if s = "MODERATE" then some .MODERATE
  else if s = "MOD" then some .MODERATE
  else if s = "LOW" then some .LOW
  else if s = "MODIFIER" then some .MODIFIER
  else none

/-- `VCFParser._parse_impact` applied to `info_fields.get('IMPACT')`.
The outer `none` is a raised `AttributeError`: a bare `IMPACT` flag stores
the bool `True`, which is truthy, and `True.upper()` raises.  `None` and the
empty string are falsy and yield "no impact". -/
def _parse_impact : Option InfoVal → Option (Option VariantImpact)
  | none => some none
  | some (.str s) => if s = "" then some none else some (impactFromString (pyUpperString s))
  | some .flag => none

/-! ### Variant line and file parsing (`VCFParser`) -/

/-- `VCFParser._parse_variant_line`: tab-split, require ≥ 8 fields, parse
position as `int`, synthesize the identifier when the id field is `.`,
parse quality as `float` unless `.`, default filter `.` to `PASS`, and
extract `GENE`/`IMPACT`/`CLINICAL` from the INFO dictionary.  Any caught
exception is `none`.  The header-line argument is accepted and ignored,
as in the source. -/
def _parse_variant_line (headerLine : Option (List Char)) (line : List Char) :
    Option Variant :=
  let fields := pySplit '\t' line
  if fields.length < 8 then none
  else
    match pythonInt (fields.getD 1 []) with
    | none => none
    | some pos =>
      let chrom := String.mk (fields.getD 0 [])
      let ref := String.mk (fields.getD 3 [])
      let alt := String.mk (fields.getD 4 [])
      let variant_id :=
        if fields.getD 2 [] = ['.'] then
          chrom ++ "_" ++ toString pos ++ "_" ++ ref ++ "_" ++ alt
        else String.mk (fields.getD 2 [])
      let qualityResult : Option (Option ℚ) :=
        if fields.getD 5 [] = ['.'] then some none
        else
          match pythonFloat (fields.getD 5 []) with
          | none => none
          | some q => some (some q)
      match qualityResult with
      | none => none
      | some quality =>
        let filter_status :=
          if fields.getD 6 [] = ['.'] then "PASS" else String.mk (fields.getD 6 [])
        let info := _parse_info_field (fields.getD 7 [])
        match _parse_impact (infoGet info "IMPACT") with
        | none => none
        | some impact =>
          some { chrom := chrom
               , pos := pos
               , variant_id := variant_id
               , ref := ref
               , alt := alt
               , gene := getStrField (infoGet info "GENE")
               , impact := impact
               , quality := quality
               , filter_status := some filter_status
               , clinical := getStrField (infoGet info "CLINICAL") }

/-- The per-line loop of `VCFParser.parse_vcf_file`: strip each line, skip
empty and `##` lines, remember the `#CHROM` header line, and collect the
successfully parsed data records in order. -/
def parseLines (header : Option (List Char)) : List (List Char) → List Variant
  | [] => []
  | l :: ls =>
    let line := pyStrip l
    if line = [] then parseLines header ls
    else if ("##".data).isPrefixOf line then parseLines header ls
    else if ("#CHROM".data).isPrefixOf line then parseLines (some line) ls
    else
      match _parse_variant_line header line with
      | some v => v :: parseLines header ls
      | none => parseLines header ls

/-- `VCFParser.parse_vcf_file` on decoded content: split on newlines and run
the per-line loop. -/
def parse_vcf_file (content : String) : List Variant :=
  parseLines none (pySplit '\n' content.data)

/-! ### Gene-category predicates (`app/infrastructure/data_repository.py`) -/

/-- The `cancer_risk_genes` set of `ClinicalDataRepository.is_cancer_risk_variant`. -/
def cancer_risk_genes : List String :=
  ["BRCA1", "BRCA2", "MLH1", "MSH2", "MSH6", "PMS2", "TP53", "KRAS", "APC",
   "PTEN", "ATM", "CHEK2", "PALB2", "BARD1", "BRIP1", "RAD51C", "RAD51D"]

/-- The `pharmacogenomic_genes` set of `ClinicalDataRepository.is_pharmacogenomic_variant`. -/
def pharmacogenomic_genes : List String :=
  ["CYP2C9", "CYP2C19", "CYP2D6", "CYP3A4", "CYP2B6", "CYP1A1", "CYP1B1", "CYP4F2",
   "TPMT", "NAT2", "UGT1A1", "SLCO1B1", "VKORC1", "ABCB1", "MTHFR", "MTR"]

/-- `ClinicalDataRepository.is_cancer_risk_variant`: falsy gene (absent or
empty) is `False`, otherwise membership of the upper-cased name. -/
def is_cancer_risk_variant : Option String → Bool
  | none => false
  | some g => if g == "" then false else cancer_risk_genes.contains (pyUpperString g)

/-- `ClinicalDataRepository.is_pharmacogenomic_variant`. -/
def is_pharmacogenomic_variant : Option String → Bool
  | none => false
  | some g => if g == "" then false else pharmacogenomic_genes.contains (pyUpperString g)

/-- The gene-category interface the classifier consumes (the two repository
predicates it calls).  The classifier receives the repository by injection,
so the decision logic is stated for an arbitrary repository. -/
structure Repo where
  is_cancer_risk_variant : Option String → Bool
  is_pharmacogenomic_variant : Option String → Bool

/-- The concrete repository wired in by `VariantProcessingService`. -/
def ClinicalDataRepository : Repo :=
  { is_cancer_risk_variant := is_cancer_risk_variant
  , is_pharmacogenomic_variant := is_pharmacogenomic_variant }

/-! ### Classifier (`VariantClassifier`) -/

/-- `FREQUENCY_THRESHOLD_PATHOGENIC = 0.01`. -/
def FREQUENCY_THRESHOLD_PATHOGENIC : ℚ := mkRat 1 100

/-- `FREQUENCY_THRESHOLD_BENIGN = 0.05`. -/
def FREQUENCY_THRESHOLD_BENIGN : ℚ := mkRat 5 100

/-- `VariantClassifier._has_pathogenic_criteria`. -/
def _has_pathogenic_criteria (repo : Repo) (v : Variant) (st : ClinVarStatus)
    (freq : ℚ) : Bool :=
  if v.impact = some .HIGH ∧ freq < FREQUENCY_THRESHOLD_PATHOGENIC then true
  else if repo.is_cancer_risk_variant v.gene = true ∧
      (st = .PATHOGENIC ∨ st = .LIKELY_PATHOGENIC) then true
  else if repo.is_pharmacogenomic_variant v.gene = true ∧
      pyTruthyStr v.clinical = true ∧ freq < FREQUENCY_THRESHOLD_PATHOGENIC then true
  else false

/-- `VariantClassifier._has_benign_criteria`. -/
def _has_benign_criteria (v : Variant) (st : ClinVarStatus) (freq : ℚ) : Bool :=
  if st = .BENIGN ∨ st = .LIKELY_BENIGN then true
  else if (v.impact = some .LOW ∨ v.impact = some .MODIFIER) ∧ mkRat 2 100 < freq then true
  else false

/-- `VariantClassifier._apply_acmg_rules`: the ordered decision rules,
first match wins. -/
def _apply_acmg_rules (repo : Repo) (st : ClinVarStatus) (freq : ℚ)
    (v : Variant) : VariantClassification :=
  if freq < FREQUENCY_THRESHOLD_PATHOGENIC ∧
      (st = .PATHOGENIC ∨ st = .LIKELY_PATHOGENIC) then .LIKELY_PATHOGENIC
  else if FREQUENCY_THRESHOLD_BENIGN < freq then .LIKELY_BENIGN
  else if _has_pathogenic_criteria repo v st freq = true then .LIKELY_PATHOGENIC
  else if _has_benign_criteria v st freq = true then .LIKELY_BENIGN
  else .UNCERTAIN

/-! ### Scorer (`VariantClassifier._calculate_significance_score`)

The Python code accumulates `score` in a float starting at `0.0`; each
`score += c` adds an integer constant, so the final float is exactly the
integer sum of the per-factor contributions below. -/

/-- Base score from the classification (`+= 100 / 50 / 10`). -/
def classificationComponent : VariantClassification → Int
  | .LIKELY_PATHOGENIC => 100
  | .UNCERTAIN => 50
  | .LIKELY_BENIGN => 10

/-- ClinVar status bonus (`+= 50 / 30 / 20 / 5`, nothing otherwise). -/
def clinvarComponent : ClinVarStatus → Int
  | .PATHOGENIC => 50
  | .LIKELY_PATHOGENIC => 30
  | .UNCERTAIN => 20
  | .LIKELY_BENIGN => 5
  | _ => 0

/-- Impact bonus (`+= 40 / 20 / 5`, nothing for `MODIFIER` or absent). -/
def impactComponent : Option VariantImpact → Int
  | some .HIGH => 40
  | some .MODERATE => 20
  | some .LOW => 5
  | _ => 0

/-- Frequency bonus: first matching band only. -/
def frequencyComponent (freq : ℚ) : Int :=
  if freq < mkRat 1 1000 then 30
  else if freq < mkRat 1 100 then 20
  else if freq < mkRat 5 100 then 10
  else 0

/-- Gene-type bonus: cancer-risk and pharmacogenomic stack. -/
def geneTypeComponent (repo : Repo) (gene : Option String) : Int :=
  (if repo.is_cancer_risk_variant gene = true then 25 else 0) +
    (if repo.is_pharmacogenomic_variant gene = true then 15 else 0)

/-- Quality bonus: `if variant.quality and variant.quality > 1000` — the
truthiness test makes a quality of exactly `0.0` (and `None`) skip both
branches. -/
def qualityComponent : Option ℚ → Int
  | none => 0
  | some q =>
    if ¬ q = 0 ∧ mkRat 1000 1 < q then 10
    else if ¬ q = 0 ∧ mkRat 500 1 < q then 5
    else 0

/-- `VariantClassifier._calculate_significance_score`. -/
def _calculate_significance_score (repo : Repo) (v : Variant)
    (st : ClinVarStatus) (freq : ℚ) (cls : VariantClassification) : Int :=
  classificationComponent cls + clinvarComponent st + impactComponent v.impact +
    frequencyComponent freq + geneTypeComponent repo v.gene + qualityComponent v.quality

/-! ### Ranker / summarizer -/

/-- The comparison Python's stable `sorted(..., key=score, reverse=True)`
realizes: `a` may stay before `b` exactly when `a`'s score is ≥ `b`'s. -/
def scoreDescLe (a b : VariantWithClassification) : Bool :=
  decide (b.significance_score ≤ a.significance_score)

/-- The stable descending sort of `VariantClassifier.get_top_variants`
(Python's `sorted` is a stable merge sort; `reverse=True` reverses the
comparison while preserving stability of equal keys). -/
def sortedByScore (l : List VariantWithClassification) :
    List VariantWithClassification :=
  l.mergeSort scoreDescLe

/-- The `VariantResult` row built for each of the top variants. -/
def toVariantResult (x : VariantWithClassification) : VariantResult :=
  { variant_id := x.variant.variant_id
  , gene := x.variant.gene
  , chrom := x.variant.chrom
  , pos := x.variant.pos
  , ref := x.variant.ref
  , alt := x.variant.alt
  , clinvar_status := x.clinvar_status
  , population_frequency := x.population_frequency
  , classification := x.classification
  , significance_score := x.significance_score
  , impact := x.variant.impact
  , clinical := x.variant.clinical }

/-- `VariantClassifier.get_top_variants`: sort descending by score (stable),
truncate to `limit` (default 10), convert to result rows. -/
def get_top_variants (l : List VariantWithClassification) (limit : Nat := 10) :
    List VariantResult :=
  ((sortedByScore l).take limit).map toVariantResult

/-- `VariantClassifier.generate_processing_summary`: aggregate counts; the
`if/elif/else` over the classification sends every variant to exactly one of
the three classification counters, `unique_genes` collects the distinct
truthy gene names into a set. -/
def generate_processing_summary (repo : Repo)
    (l : List VariantWithClassification) : ProcessingSummary :=
  { total_variants := l.length
  , pathogenic_variants :=
      (l.filter (fun x => x.classification = .LIKELY_PATHOGENIC)).length
  , benign_variants :=
      (l.filter (fun x => x.classification = .LIKELY_BENIGN)).length
  , uncertain_variants :=
      (l.filter (fun x => ¬ x.classification = .LIKELY_PATHOGENIC ∧
        ¬ x.classification = .LIKELY_BENIGN)).length
  , high_impact_variants :=
      (l.filter (fun x => x.variant.impact = some .HIGH)).length
  , drug_response_variants :=
      (l.filter (fun x => repo.is_pharmacogenomic_variant x.variant.gene = true)).length
  , unique_genes :=
      ((l.filterMap (fun x => x.variant.gene)).filter (fun g => pyTruthyStr (some g) = true)).dedup.length }

/-! ### Rules introspection (`VariantClassifier.get_classification_rules`) -/

/-- One entry of the static `rules` list. -/
structure RuleInfo where
  rule : String
  condition : String
  classification : String
deriving DecidableEq

/-- The static dictionary returned by `get_classification_rules`. -/
structure ClassificationRulesInfo where
  frequency_thresholds : List (String × ℚ)
  rules : List RuleInfo
  scoring_factors : List (String × List (String × Int))
deriving DecidableEq

/-- `VariantClassifier.get_classification_rules`, verbatim. -/
def get_classification_rules : ClassificationRulesInfo :=
  { frequency_thresholds :=
      [("pathogenic", FREQUENCY_THRESHOLD_PATHOGENIC), ("benign", FREQUENCY_THRESHOLD_BENIGN)]
  , rules :=
      [ { rule := "Pathogenic with low frequency"
        , condition := "frequency < 0.01 AND ClinVar is Pathogenic/Likely Pathogenic"
        , classification := "Likely Pathogenic" }
      , { rule := "High frequency benign"
        , condition := "frequency > 0.05"
        , classification := "Likely Benign" }
      , { rule := "High impact pathogenic"
        , condition := "HIGH impact AND frequency < 0.01"
        , classification := "Likely Pathogenic" }
      , { rule := "Cancer risk gene"
        , condition := "cancer risk gene AND pathogenic ClinVar status"
        , classification := "Likely Pathogenic" }
      , { rule := "Default"
        , condition := "all other cases"
        , classification := "Uncertain" } ]
  , scoring_factors :=
      [ ("classification",
          [("Likely Pathogenic", 100), ("Uncertain", 50), ("Likely Benign", 10)])
      , ("clinvar_status",
          [("Pathogenic", 50), ("Likely Pathogenic", 30), ("Uncertain", 20),
           ("Likely Benign", 5), ("Benign", 1)])
      , ("impact",
          [("HIGH", 40), ("MODERATE", 20), ("LOW", 5), ("MODIFIER", 1)])
      , ("frequency",
          [("< 0.001", 30), ("< 0.01", 20), ("< 0.05", 10)])
      , ("gene_type",
          [("cancer_risk", 25), ("pharmacogenomic", 15)]) ] }

/-- The weight the introspection structure reports for a value of a factor. -/
def factorWeight (factor val : String) : Option Int :=
  match (get_classification_rules.scoring_factors.find? (fun p => p.1 == factor)) with
  | none => none
  | some (_, tbl) => ((tbl.find? (fun p => p.1 == val)).map (fun p => p.2))

/-! ### Concrete inputs used in the claims -/

/-- A minimal parsed record (no gene, impact, quality or note). -/
def sampleVariant : Variant :=
  { chrom := "1", pos := 100, variant_id := "rs1", ref := "A", alt := "G"
  , gene := none, impact := none, quality := none
  , filter_status := some "PASS", clinical := none }

/-- The end-to-end example input line of the specification. -/
def brca1Line : String :=
  "17\t41197701\trs28897756\tA\tG\t900\t.\tGENE=BRCA1;IMPACT=HIGH"

/-- The record the parser produces for `brca1Line`. -/
def brca1Variant : Variant :=
  { chrom := "17", pos := 41197701, variant_id := "rs28897756", ref := "A", alt := "G"
  , gene := some "BRCA1", impact := some .HIGH, quality := some (mkRat 900 1)
  , filter_status := some "PASS", clinical := none }

/-- A data line whose position field is `0`. -/
def zeroPosLine : String := "1\t0\trs1\tA\tG\t.\t.\t."

/-- The record the parser produces for `zeroPosLine`: position 0. -/
def zeroPosVariant : Variant :=
  { chrom := "1", pos := 0, variant_id := "rs1", ref := "A", alt := "G"
  , gene := none, impact := none, quality := none
  , filter_status := some "PASS", clinical := none }

/-- A batch of 10 data lines of which exactly 3 are malformed: line 3 has
only 6 tab-separated fields, line 4 has a non-integer position, line 6 has a
quality that is neither `.` nor a float. -/
def vcfBatch10 : String :=
  "##fileformat=VCFv4.2\n" ++
  "#CHROM\tPOS\tID\tREF\tALT\tQUAL\tFILTER\tINFO\n" ++
  "1\t100\trs1\tA\tG\t.\t.\tGENE=BRCA1\n" ++
  "2\t200\trs2\tC\tT\t50\t.\tIMPACT=LOW\n" ++
  "3\t300\trs3\tG\tA\t.\n" ++
  "4\tabc\trs4\tT\tC\t.\t.\t.\n" ++
  "5\t500\t.\tA\tT\t.\tq10\tCLINICAL=known\n" ++
  "6\t600\trs6\tG\tC\txx\t.\t.\n" ++
  "7\t700\trs7\tA\tC\t1200.5\t.\tIMPACT=MOD\n" ++
  "8\t800\trs8\tT\tG\t.\t.\t.\n" ++
  "9\t900\trs9\tC\tA\t0\t.\tGENE=TPMT;IMPACT=HIGH\n" ++
  "10\t1000\trs10\tG\tT\t.\t.\tFOO;GENE=X\n"

/-! ### Shared helper lemmas -/

/-- `_parse_variant_line` never reads the header-line argument. -/
theorem parse_line_header_irrelevant (h h' : Option (List Char)) (line : List Char) :
    _parse_variant_line h line = _parse_variant_line h' line := rfl

/-- The per-line loop yields the same records whatever header it carries. -/
theorem parseLines_header_irrelevant :
    ∀ (ls : List (List Char)) (h h' : Option (List Char)),
      parseLines h ls = parseLines h' ls
  | [], _, _ => rfl
  | l :: ls, h, h' => by
    simp only [parseLines]
    split_ifs with h1 h2 h3
    · exact parseLines_header_irrelevant ls h h'
    · exact parseLines_header_irrelevant ls h h'
    · rfl
    · rw [parse_line_header_irrelevant h h' (pyStrip l)]
      cases _parse_variant_line h' (pyStrip l) with
      | none => exact parseLines_header_irrelevant ls h h'
      | some v => rw [parseLines_header_irrelevant ls h h']

/-- The per-line loop distributes over concatenation of line lists. -/
theorem parseLines_append :
    ∀ (ls1 : List (List Char)) (h : Option (List Char)) (ls2 : List (List Char)),
      parseLines h (ls1 ++ ls2) = parseLines h ls1 ++ parseLines h ls2
  | [], _, _ => rfl
  | l :: ls1, h, ls2 => by
    simp only [List.cons_append, parseLines, List.append_eq]
    split_ifs with h1 h2 h3
    · exact parseLines_append ls1 h ls2
    · exact parseLines_append ls1 h ls2
    · rw [parseLines_append ls1 (some (pyStrip l)) ls2,
        parseLines_header_irrelevant ls2 (some (pyStrip l)) h]
    · cases _parse_variant_line h (pyStrip l) with
      | none => exact parseLines_append ls1 h ls2
      | some v =>
        show v :: parseLines h (ls1 ++ ls2) = v :: parseLines h ls1 ++ parseLines h ls2
        rw [parseLines_append ls1 h ls2, List.cons_append]

/-- Splitting at a character that does not occur returns the whole list. -/
theorem pySplit_of_not_contains (sep : Char) :
    ∀ (s : List Char), s.contains sep = false → pySplit sep s = [s]
  | [], _ => rfl
  | c :: cs, h => by
    simp only [List.contains_cons, Bool.or_eq_false_iff, beq_eq_false_iff_ne] at h
    simp only [pySplit, pySplit_of_not_contains sep cs h.2]
    rw [if_neg (by exact fun hc => h.1 hc.symm)]

/-- `splitFirst` fails exactly like Python's `'=' in field` test when the
separator does not occur. -/
theorem splitFirst_of_not_contains (sep : Char) :
    ∀ (s : List Char), s.contains sep = false → splitFirst sep s = none
  | [], _ => rfl
  | c :: cs, h => by
    simp only [List.contains_cons, Bool.or_eq_false_iff, beq_eq_false_iff_ne] at h
    simp only [splitFirst, splitFirst_of_not_contains sep cs h.2]
    rw [if_neg (by exact fun hc => h.1 hc.symm)]

/-! ### Claim theorems -/

/-- C1: for every variant record, clinical status and population frequency
strictly greater than 0.05, `_apply_acmg_rules` returns Likely Benign,
regardless of clinical status (including Pathogenic), impact, gene-category
membership or clinical note: rule 1 cannot fire because its frequency
conjunct `freq < 0.01` is incompatible with `freq > 0.05`, so rule 2 fires
first. -/
theorem high_frequency_always_likely_benign (repo : Repo) (st : ClinVarStatus)
    (freq : ℚ) (v : Variant) (h : FREQUENCY_THRESHOLD_BENIGN < freq) :
    _apply_acmg_rules repo st freq v = .LIKELY_BENIGN := by
  have hne : ¬ (freq < FREQUENCY_THRESHOLD_PATHOGENIC ∧
      (st = .PATHOGENIC ∨ st = .LIKELY_PATHOGENIC)) := by
    rintro ⟨h1, -⟩
    exact absurd (lt_trans h h1) (by decide)
  simp only [_apply_acmg_rules, if_neg hne, if_pos h]

/-- Witness for C1: the record with frequency 0.06 and clinical status
Pathogenic classifies as Likely Benign. -/
theorem high_frequency_always_likely_benign_witness :
    FREQUENCY_THRESHOLD_BENIGN < mkRat 6 100 ∧
      _apply_acmg_rules ClinicalDataRepository .PATHOGENIC (mkRat 6 100) sampleVariant =
        .LIKELY_BENIGN :=
  ⟨by decide,
   high_frequency_always_likely_benign ClinicalDataRepository .PATHOGENIC
     (mkRat 6 100) sampleVariant (by decide)⟩

/-- C2: the end-to-end example — the data line
`17 41197701 rs28897756 A G 900 . GENE=BRCA1;IMPACT=HIGH` parses to the
expected record, BRCA1 is a cancer-risk but not a pharmacogenomic gene, and
with annotation (Pathogenic, 0.0001) the classifier yields Likely Pathogenic
with a significance score of exactly 250
(100 + 50 + 40 + 30 + 25 + 5). -/
theorem end_to_end_brca1_example :
    _parse_variant_line none brca1Line.data = some brca1Variant ∧
    is_cancer_risk_variant (some "BRCA1") = true ∧
    is_pharmacogenomic_variant (some "BRCA1") = false ∧
    _apply_acmg_rules ClinicalDataRepository .PATHOGENIC (mkRat 1 10000) brca1Variant =
      .LIKELY_PATHOGENIC ∧
    _calculate_significance_score ClinicalDataRepository brca1Variant .PATHOGENIC
      (mkRat 1 10000) .LIKELY_PATHOGENIC = 250 := by
  refine ⟨by decide, by decide, by decide, by decide, by decide⟩

/-- C3 (divergence exhibit): the static introspection structure does NOT
agree with the scorer.  It reports weight 1 for clinical status Benign and
weight 1 for impact MODIFIER, while `_calculate_significance_score` adds 0
for both; its rule list has only five entries — it omits the pharmacogenomic
pathogenic rule and both benign criteria the classifier evaluates — and its
scoring factors omit the quality factor entirely. -/
theorem introspection_disagrees_with_scorer :
    factorWeight "clinvar_status" "Benign" = some 1 ∧
    clinvarComponent .BENIGN = 0 ∧
    factorWeight "impact" "MODIFIER" = some 1 ∧
    impactComponent (some .MODIFIER) = 0 ∧
    get_classification_rules.rules.map RuleInfo.rule =
      ["Pathogenic with low frequency", "High frequency benign",
       "High impact pathogenic", "Cancer risk gene", "Default"] ∧
    factorWeight "quality" "> 1000" = none := by
  refine ⟨by decide, by decide, by decide, by decide, by decide, by decide⟩

/-- The classification base contribution is at least 10. -/
theorem classificationComponent_ge_ten (cls : VariantClassification) :
    10 ≤ classificationComponent cls := by
  cases cls <;> decide

/-- Every non-base scoring contribution is non-negative. -/
theorem other_components_nonneg (repo : Repo) (st : ClinVarStatus)
    (i : Option VariantImpact) (freq : ℚ) (g : Option String) (q : Option ℚ) :
    0 ≤ clinvarComponent st ∧ 0 ≤ impactComponent i ∧ 0 ≤ frequencyComponent freq ∧
      0 ≤ geneTypeComponent repo g ∧ 0 ≤ qualityComponent q := by
  refine ⟨by cases st <;> decide, ?_, ?_, ?_, ?_⟩
  · rcases i with - | i
    · decide
    · cases i <;> decide
  · unfold frequencyComponent
    split_ifs <;> decide
  · unfold geneTypeComponent
    split_ifs <;> decide
  · rcases q with - | q
    · decide
    · simp only [qualityComponent]
      split_ifs <;> decide

/-- C10: for every repository, variant, clinical status, frequency and
classification, the significance score is at least 10: the classification
factor contributes at least 10 (Likely Benign's base) and every other
factor's contribution is non-negative. -/
theorem significance_score_at_least_ten (repo : Repo) (v : Variant)
    (st : ClinVarStatus) (freq : ℚ) (cls : VariantClassification) :
    10 ≤ _calculate_significance_score repo v st freq cls := by
  have h1 := classificationComponent_ge_ten cls
  have h2 := other_components_nonneg repo st v.impact freq v.gene v.quality
  unfold _calculate_significance_score
  omega

/-- C4 (counterexample): the parser enforces no data-model invariant — the
data line `1 0 rs1 A G . . .` produces a record whose position is 0, not
strictly positive. -/
theorem parser_accepts_position_zero :
    _parse_variant_line none zeroPosLine.data = some zeroPosVariant ∧
      ¬ (0 < zeroPosVariant.pos) := by
  refine ⟨by decide, by decide⟩

/-- C4 (amended): every record the parser produces takes its chromosome,
reference allele and alternate allele verbatim from tab-fields 1, 4 and 5
and its position from Python integer parsing of tab-field 2; the invariant
(position > 0, non-empty chromosome/ref/alt) therefore holds exactly when
the input fields satisfy it, and is not enforced by the parser. -/
theorem parsed_record_field_provenance (header : Option (List Char))
    (line : List Char) (v : Variant)
    (h : _parse_variant_line header line = some v) :
    v.chrom = String.mk ((pySplit '\t' line).getD 0 []) ∧
    pythonInt ((pySplit '\t' line).getD 1 []) = some v.pos ∧
    v.ref = String.mk ((pySplit '\t' line).getD 3 []) ∧
    v.alt = String.mk ((pySplit '\t' line).getD 4 []) := by
  simp only [_parse_variant_line] at h
  split at h
  · exact absurd h (by simp)
  · split at h
    · exact absurd h (by simp)
    · next pos hpos =>
      split at h
      · exact absurd h (by simp)
      · next quality hq =>
        split at h
        · exact absurd h (by simp)
        · next impact hi =>
          rw [Option.some_inj] at h
          subst h
          exact ⟨rfl, hpos, rfl, rfl⟩

/-- Witness for C4's amended theorem at the end-to-end example line. -/
theorem parsed_record_field_provenance_witness :
    brca1Variant.chrom = String.mk ((pySplit '\t' brca1Line.data).getD 0 []) ∧
    pythonInt ((pySplit '\t' brca1Line.data).getD 1 []) = some brca1Variant.pos ∧
    brca1Variant.ref = String.mk ((pySplit '\t' brca1Line.data).getD 3 []) ∧
    brca1Variant.alt = String.mk ((pySplit '\t' brca1Line.data).getD 4 []) :=
  parsed_record_field_provenance none brca1Line.data brca1Variant (by decide)

/-- C5 (counterexample): a data line whose INFO field is the bare token
`IMPACT` does NOT produce a record: the flag is stored as the Python bool
`True`, which is truthy, so `_parse_impact` calls `.upper()` on it and the
resulting `AttributeError` makes the parser drop the whole line. -/
theorem bare_impact_flag_drops_record :
    _parse_variant_line none ("1\t100\trs1\tA\tG\t.\t.\tIMPACT".data) = none := by
  decide

/-- C5 (amended): a bare INFO flag token is recorded in the INFO dictionary
with the valueless flag marker (Python `True`).  A bare token whose key is
none of GENE/IMPACT/CLINICAL leaves all typed fields absent and the record
is produced.  But a bare `GENE` or `CLINICAL` token leaks into the typed
field as the string `"True"` (pydantic v1 stringifies the bool), and a bare
`IMPACT` token raises inside impact parsing, so that record is dropped. -/
theorem bare_flag_token_semantics :
    (∀ s : List Char, s.contains ';' = false → s.contains '=' = false →
      s ≠ [] → s ≠ ['.'] → _parse_info_field s = [(String.mk s, .flag)]) ∧
    ((_parse_variant_line none ("1\t100\trs1\tA\tG\t.\t.\tFOO".data)).map
      (fun v => (v.gene, v.impact, v.clinical)) = some (none, none, none)) ∧
    ((_parse_variant_line none ("1\t100\trs1\tA\tG\t.\t.\tGENE".data)).bind
      Variant.gene = some "True") ∧
    ((_parse_variant_line none ("1\t100\trs1\tA\tG\t.\t.\tCLINICAL".data)).bind
      Variant.clinical = some "True") ∧
    _parse_impact (some .flag) = none ∧
    _parse_variant_line none ("1\t100\trs1\tA\tG\t.\t.\tIMPACT".data) = none := by
  refine ⟨?_, by decide, by decide, by decide, by decide, by decide⟩
  intro s h1 h2 h3 h4
  rw [_parse_info_field, if_neg (by exact fun hc => hc.elim h3 h4),
    pySplit_of_not_contains ';' s h1]
  simp only [List.foldl_cons, List.foldl_nil, splitFirst_of_not_contains '=' s h2]
  rfl

/-- Witness for C5's amended theorem: the bare token `FOO` is recorded as a
valueless flag. -/
theorem bare_flag_token_semantics_witness :
    _parse_info_field ("FOO".data) = [(String.mk ("FOO".data), .flag)] :=
  bare_flag_token_semantics.1 ("FOO".data) (by decide) (by decide) (by decide) (by decide)

/-- C6: the frequency thresholds are strict.  With frequency exactly 0.01,
clinical status Pathogenic, impact not HIGH and a gene in neither category,
the classifier returns Uncertain (rule 1 requires `< 0.01`); with frequency
exactly 0.05, status Uncertain Significance, impact in neither LOW nor
MODIFIER and a gene in neither category, it returns Uncertain (rule 2
requires `> 0.05`). -/
theorem frequency_thresholds_are_strict :
    (∀ (repo : Repo) (v : Variant),
      repo.is_cancer_risk_variant v.gene = false →
      repo.is_pharmacogenomic_variant v.gene = false →
      ¬ v.impact = some .HIGH →
      _apply_acmg_rules repo .PATHOGENIC (mkRat 1 100) v = .UNCERTAIN) ∧
    (∀ (repo : Repo) (v : Variant),
      repo.is_cancer_risk_variant v.gene = false →
      repo.is_pharmacogenomic_variant v.gene = false →
      ¬ v.impact = some .LOW → ¬ v.impact = some .MODIFIER →
      _apply_acmg_rules repo .UNCERTAIN (mkRat 5 100) v = .UNCERTAIN) := by
  constructor
  · intro repo v hc hp hi
    have hpath : _has_pathogenic_criteria repo v .PATHOGENIC (mkRat 1 100) = false := by
      unfold _has_pathogenic_criteria
      rw [if_neg (by rintro ⟨-, hlt⟩; exact absurd hlt (by decide)),
        if_neg (by rintro ⟨hc2, -⟩; rw [hc] at hc2; exact Bool.false_ne_true hc2),
        if_neg (by rintro ⟨hp2, -⟩; rw [hp] at hp2; exact Bool.false_ne_true hp2)]
    have hben : _has_benign_criteria v .PATHOGENIC (mkRat 1 100) = false := by
      unfold _has_benign_criteria
      rw [if_neg (by rintro (h | h) <;> exact ClinVarStatus.noConfusion h),
        if_neg (by rintro ⟨-, hlt⟩; exact absurd hlt (by decide))]
    unfold _apply_acmg_rules
    rw [if_neg (by rintro ⟨hlt, -⟩; exact absurd hlt (by decide)),
      if_neg (by intro hlt; exact absurd hlt (by decide)),
      if_neg (by rw [hpath]; exact Bool.false_ne_true),
      if_neg (by rw [hben]; exact Bool.false_ne_true)]
  · intro repo v hc hp hlow hmod
    have hpath : _has_pathogenic_criteria repo v .UNCERTAIN (mkRat 5 100) = false := by
      unfold _has_pathogenic_criteria
      rw [if_neg (by rintro ⟨-, hlt⟩; exact absurd hlt (by decide)),
        if_neg (by rintro ⟨hc2, -⟩; rw [hc] at hc2; exact Bool.false_ne_true hc2),
        if_neg (by rintro ⟨hp2, -⟩; rw [hp] at hp2; exact Bool.false_ne_true hp2)]
    have hben : _has_benign_criteria v .UNCERTAIN (mkRat 5 100) = false := by
      unfold _has_benign_criteria
      rw [if_neg (by rintro (h | h) <;> exact ClinVarStatus.noConfusion h),
        if_neg (by rintro ⟨h | h, -⟩; exact hlow h; exact hmod h)]
    unfold _apply_acmg_rules
    rw [if_neg (by rintro ⟨hlt, -⟩; exact absurd hlt (by decide)),
      if_neg (by intro hlt; exact absurd hlt (by decide)),
      if_neg (by rw [hpath]; exact Bool.false_ne_true),
      if_neg (by rw [hben]; exact Bool.false_ne_true)]

/-- Witness for C6 at the concrete repository and a record with no gene and
no impact. -/
theorem frequency_thresholds_are_strict_witness :
    _apply_acmg_rules ClinicalDataRepository .PATHOGENIC (mkRat 1 100) sampleVariant =
      .UNCERTAIN ∧
    _apply_acmg_rules ClinicalDataRepository .UNCERTAIN (mkRat 5 100) sampleVariant =
      .UNCERTAIN :=
  ⟨frequency_thresholds_are_strict.1 ClinicalDataRepository sampleVariant
      (by decide) (by decide) (by decide),
   frequency_thresholds_are_strict.2 ClinicalDataRepository sampleVariant
      (by decide) (by decide) (by decide) (by decide)⟩

set_option maxRecDepth 8000 in
/-- C7: parsing is total per line and per batch.  A data line with fewer
than 8 tab-separated fields, or an unparsable position, or a quality that is
neither `.` nor a float, yields no record; dropping such a line never
disturbs the records produced for the surrounding lines; and the concrete
batch of 10 data lines of which 3 are malformed yields exactly 7 records.
(In the model the parser is a total function, which is how the
caught-per-line exceptions of the source are rendered: nothing ever
escapes a single line.) -/
theorem malformed_lines_are_dropped_not_fatal :
    (∀ (header : Option (List Char)) (line : List Char),
      (pySplit '\t' line).length < 8 → _parse_variant_line header line = none) ∧
    (∀ (header : Option (List Char)) (line : List Char),
      pythonInt ((pySplit '\t' line).getD 1 []) = none →
      _parse_variant_line header line = none) ∧
    (∀ (header : Option (List Char)) (line : List Char),
      ¬ (pySplit '\t' line).getD 5 [] = ['.'] →
      pythonFloat ((pySplit '\t' line).getD 5 []) = none →
      _parse_variant_line header line = none) ∧
    (∀ (header : Option (List Char)) (ls1 ls2 : List (List Char)) (bad : List Char),
      _parse_variant_line none (pyStrip bad) = none →
      parseLines header (ls1 ++ bad :: ls2) = parseLines header (ls1 ++ ls2)) ∧
    (parse_vcf_file vcfBatch10).length = 7 := by
  refine ⟨?_, ?_, ?_, ?_, by decide⟩
  · intro header line h
    simp only [_parse_variant_line]
    rw [if_pos h]
  · intro header line h
    simp only [_parse_variant_line]
    split
    · rfl
    · rw [h]
  · intro header line h5 hq
    simp only [_parse_variant_line]
    split
    · rfl
    · cases hpos : pythonInt ((pySplit '\t' line).getD 1 []) with
      | none => rfl
      | some pos => rw [hq]
  · intro header ls1 ls2 bad hbad
    rw [parseLines_append ls1 header (bad :: ls2), parseLines_append ls1 header ls2]
    have hdrop : parseLines header (bad :: ls2) = parseLines header ls2 := by
      simp only [parseLines]
      split_ifs with h1 h2 h3
      · rfl
      · rfl
      · exact parseLines_header_irrelevant ls2 (some (pyStrip bad)) header
      · rw [parse_line_header_irrelevant header none (pyStrip bad), hbad]
    rw [hdrop]

/-- Witness for C7: the 6-field line of the batch is dropped. -/
theorem malformed_lines_are_dropped_not_fatal_witness :
    (pySplit '\t' ("3\t300\trs3\tG\tA\t.".data)).length < 8 ∧
    _parse_variant_line none ("3\t300\trs3\tG\tA\t.".data) = none :=
  ⟨by decide,
   malformed_lines_are_dropped_not_fatal.1 none ("3\t300\trs3\tG\tA\t.".data) (by decide)⟩

/-- The three-way classification split of the summary partitions the list. -/
theorem classification_filter_partition (l : List VariantWithClassification) :
    (l.filter (fun x => x.classification = VariantClassification.LIKELY_PATHOGENIC)).length +
      (l.filter (fun x => x.classification = VariantClassification.LIKELY_BENIGN)).length +
      (l.filter (fun x => ¬ x.classification = VariantClassification.LIKELY_PATHOGENIC ∧
        ¬ x.classification = VariantClassification.LIKELY_BENIGN)).length = l.length := by
  induction l with
  | nil => rfl
  | cons x xs ih =>
    rw [List.filter_cons, List.filter_cons, List.filter_cons, List.length_cons]
    rcases hx : x.classification
    · rw [if_pos (by decide), if_neg (by decide), if_neg (by decide), List.length_cons]
      omega
    · rw [if_neg (by decide), if_pos (by decide), if_neg (by decide), List.length_cons]
      omega
    · rw [if_neg (by decide), if_neg (by decide), if_pos (by decide), List.length_cons]
      omega

/-- C9: for every repository and classified batch, the summary satisfies
`pathogenic + benign + uncertain = total` and `total` is the length of the
input list (every variant lands in exactly one branch of the
`if/elif/else`). -/
theorem summary_counts_consistent (repo : Repo) (l : List VariantWithClassification) :
    (generate_processing_summary repo l).pathogenic_variants +
      (generate_processing_summary repo l).benign_variants +
      (generate_processing_summary repo l).uncertain_variants =
      (generate_processing_summary repo l).total_variants ∧
    (generate_processing_summary repo l).total_variants = l.length := by
  refine ⟨?_, rfl⟩
  simp only [generate_processing_summary]
  exact classification_filter_partition l

/-- The descending score comparison is transitive. -/
theorem scoreDescLe_trans : ∀ (a b c : VariantWithClassification),
    scoreDescLe a b → scoreDescLe b c → scoreDescLe a c := by
  intro a b c h1 h2
  simp only [scoreDescLe, decide_eq_true_eq] at h1 h2 ⊢
  exact le_trans h2 h1

/-- The descending score comparison is total. -/
theorem scoreDescLe_total : ∀ (a b : VariantWithClassification),
    scoreDescLe a b || scoreDescLe b a := by
  intro a b
  simp only [scoreDescLe, Bool.or_eq_true, decide_eq_true_eq]
  exact le_total b.significance_score a.significance_score

/-- C8: the top-variants operation returns at most `limit` rows (default
10), ordered by significance score in descending order, and the ranking is
stable: for every score value, the equal-score rows of the output appear in
exactly the input order (the output's equal-score sublist is a prefix of
the input's equal-score sublist, because Python's `sorted` — a stable merge
sort — preserves the relative order of equal keys and truncation takes a
prefix). -/
theorem top_variants_bounded_sorted_stable (l : List VariantWithClassification)
    (limit : Nat) :
    (get_top_variants l limit).length ≤ limit ∧
    (get_top_variants l limit).Pairwise
      (fun a b => b.significance_score ≤ a.significance_score) ∧
    get_top_variants l limit = ((sortedByScore l).take limit).map toVariantResult ∧
    (∀ s : Int,
      ((sortedByScore l).take limit).filter (fun x => x.significance_score = s) <+:
        l.filter (fun x => x.significance_score = s)) := by
  refine ⟨?_, ?_, rfl, ?_⟩
  · simp only [get_top_variants, List.length_map]
    exact List.length_take_le limit _
  · rw [get_top_variants, List.pairwise_map]
    have hs : (sortedByScore l).Pairwise (fun a b => scoreDescLe a b = true) :=
      List.sorted_mergeSort scoreDescLe_trans scoreDescLe_total l
    have hst : ((sortedByScore l).take limit).Pairwise (fun a b => scoreDescLe a b = true) :=
      List.Pairwise.sublist (List.take_sublist limit _) hs
    exact hst.imp (fun h => of_decide_eq_true h)
  · intro s
    have hmemP : ∀ x ∈ l.filter (fun x => x.significance_score = s),
        x.significance_score = s := by
      intro x hx
      exact of_decide_eq_true (List.mem_filter.mp hx).2
    have hpair : (l.filter (fun x => x.significance_score = s)).Pairwise
        (fun a b => scoreDescLe a b = true) := by
      refine List.pairwise_of_forall_mem_list (fun a ha b hb => ?_)
      simp only [scoreDescLe, decide_eq_true_eq]
      rw [hmemP a ha, hmemP b hb]
    have hsub : List.Sublist (l.filter (fun x => x.significance_score = s)) (sortedByScore l) :=
      List.sublist_mergeSort scoreDescLe_trans scoreDescLe_total hpair
        (List.filter_sublist l)
    have hfil : (l.filter (fun x => x.significance_score = s)).filter
        (fun x => x.significance_score = s) = l.filter (fun x => x.significance_score = s) := by
      rw [List.filter_eq_self]
      intro a ha
      exact (List.mem_filter.mp ha).2
    have hsub2 : List.Sublist (l.filter (fun x => x.significance_score = s))
        ((sortedByScore l).filter (fun x => x.significance_score = s)) := by
      have h2 := List.Sublist.filter (fun x => decide (x.significance_score = s)) hsub
      rwa [hfil] at h2
    have hlen : ((sortedByScore l).filter (fun x => x.significance_score = s)).length =
        (l.filter (fun x => x.significance_score = s)).length :=
      ((List.mergeSort_perm l scoreDescLe).filter _).length_eq
    have heq : l.filter (fun x => x.significance_score = s) =
        (sortedByScore l).filter (fun x => x.significance_score = s) :=
      hsub2.eq_of_length hlen.symm
    have hpre : ((sortedByScore l).take limit).filter (fun x => x.significance_score = s) <+:
        (sortedByScore l).filter (fun x => x.significance_score = s) :=
      List.IsPrefix.filter _ (List.take_prefix limit _)
    rw [← heq] at hpre
    exact hpre
